import Mathlib

/-!
Shallow embedding of the Obsidian Zettelkasten AI plugin
(`src/obsidian_zettelkasten_plugin.ts`), for checking the natural-language
specification against the code.

Modelling conventions:
* JS strings are modelled as `List Char` (abbreviated `JStr`); the string
  primitives used by the plugin (`split(/\s+/)`, `toLowerCase`, `trim`,
  `includes`, `Set` deduplication, first-occurrence substring search for the
  front-matter regex) are defined below with JS semantics.
* JS numbers appearing in the similarity computation are exact rationals `ℚ`
  (every value that arises is a ratio of small naturals, so no floating-point
  rounding is involved in the properties checked here).
* Effectful collaborators (the vault, the HTTP fetch, the LLM) are passed in
  explicitly as oracle parameters; a function's outbound requests are returned
  alongside its result.
-/

/-- A JS string, modelled as its character sequence. -/
abbrev JStr := List Char

/-- The ASCII part of the JS regex character class `\s`, as consumed by
`split(/\s+/)` in `calculateSimilarity`. -/
def isWS (c : Char) : Bool :=
  c == ' ' || c == '\t' || c == '\n' || c == '\r' || c == '\x0b' || c == '\x0c'

/-- Worker for `jsSplitWhitespace`: `acc` is the current segment (reversed),
`afterWS` records whether the previous character was whitespace (so that a
maximal whitespace run produces a single separator). -/
def splitWSAux : List Char → List Char → Bool → List (List Char)
  | [], acc, _ => [acc.reverse]
  | c :: rest, acc, afterWS =>
    if isWS c then
      if afterWS then splitWSAux rest [] true
      else acc.reverse :: splitWSAux rest [] true
    else splitWSAux rest (c :: acc) false

/-- JS `s.split(/\s+/)`: the segments between maximal whitespace runs.  A
leading (resp. trailing) whitespace run contributes an empty leading
(resp. trailing) segment, and the empty string yields `[""]` (the regex does
not match the empty string, so JS returns the whole input as one segment). -/
def jsSplitWhitespace (s : JStr) : List JStr :=
  splitWSAux s [] false

/-- JS `s.toLowerCase()` (ASCII range; `Char.toLower` agrees with JS there). -/
def jsToLower (s : JStr) : JStr :=
  s.map Char.toLower

/-- The word list the similarity estimator derives from a text:
`content.toLowerCase().split(/\s+/)`. -/
def similarityWords (content : JStr) : List JStr :=
  jsSplitWhitespace (jsToLower content)

/-- Worker for `jsSetDedup`; `seen` holds the elements already emitted. -/
def jsSetDedupAux : List JStr → List JStr → List JStr
  | [], _ => []
  | a :: l, seen =>
    if seen.contains a then jsSetDedupAux l seen
    else a :: jsSetDedupAux l (a :: seen)

/-- JS `[...new Set(l)]`: deduplication keeping the first occurrence of each
element, in insertion order. -/
def jsSetDedup (l : List JStr) : List JStr :=
  jsSetDedupAux l []

/-- `AIService.calculateSimilarity` (lines 390-400 of
`obsidian_zettelkasten_plugin.ts`):
`words1 = content1.toLowerCase().split(/\s+/)`,
`words2 = content2.toLowerCase().split(/\s+/)`,
`intersection = words1.filter(word => words2.includes(word))`,
`union = [...new Set([...words1, ...words2])]`,
result `intersection.length / union.length`. -/
def calculateSimilarity (content1 content2 : JStr) : ℚ :=
  (((similarityWords content1).filter
      (fun word => (similarityWords content2).contains word)).length : ℚ) /
    ((jsSetDedup (similarityWords content1 ++ similarityWords content2)).length : ℚ)

/-! ### Supporting lemmas about the similarity estimator -/

theorem splitWSAux_ne_nil (s acc : List Char) (b : Bool) : splitWSAux s acc b ≠ [] := by
  induction s generalizing acc b with
  | nil => simp [splitWSAux]
  | cons c rest ih =>
    rw [splitWSAux]
    split
    · split
      · exact ih _ _
      · simp
    · exact ih _ _

theorem similarityWords_ne_nil (s : JStr) : similarityWords s ≠ [] :=
  splitWSAux_ne_nil _ _ _

theorem similarityWords_length_pos (s : JStr) : 0 < (similarityWords s).length :=
  List.length_pos.mpr (similarityWords_ne_nil s)

theorem jsSetDedupAux_length (l : List JStr) (seen : List JStr) :
    (jsSetDedupAux l seen).length = (l.toFinset \ seen.toFinset).card := by
  induction l generalizing seen with
  | nil => simp [jsSetDedupAux]
  | cons a l ih =>
    by_cases h : a ∈ seen
    · have hc : seen.contains a = true := by simpa using h
      rw [jsSetDedupAux, if_pos hc, ih]
      congr 1
      rw [List.toFinset_cons, Finset.insert_sdiff_of_mem _ (List.mem_toFinset.mpr h)]
    · have hc : ¬ seen.contains a = true := by simpa using h
      rw [jsSetDedupAux, if_neg hc]
      rw [List.length_cons, ih (a :: seen)]
      have hset : (a :: l).toFinset \ seen.toFinset
          = insert a (l.toFinset \ (a :: seen).toFinset) := by
        ext x
        simp only [List.toFinset_cons, Finset.mem_sdiff, Finset.mem_insert, List.mem_toFinset]
        constructor
        · rintro ⟨hx | hx, hns⟩
          · exact Or.inl hx
          · by_cases hxa : x = a
            · exact Or.inl hxa
            · exact Or.inr ⟨hx, by simp [hxa, hns]⟩
        · rintro (hx | ⟨hx, hns⟩)
          · subst hx
            exact ⟨Or.inl rfl, h⟩
          · refine ⟨Or.inr hx, ?_⟩
            simp only [List.mem_cons, not_or] at hns
            exact hns.2
      rw [hset, Finset.card_insert_of_not_mem (by simp)]

theorem jsSetDedup_length (l : List JStr) : (jsSetDedup l).length = l.toFinset.card := by
  simp [jsSetDedup, jsSetDedupAux_length]

theorem union_length_pos (a b : JStr) :
    0 < (jsSetDedup (similarityWords a ++ similarityWords b)).length := by
  rw [jsSetDedup_length]
  apply Finset.card_pos.mpr
  obtain ⟨w, l, hwl⟩ : ∃ w l, similarityWords a = w :: l := by
    cases hsw : similarityWords a with
    | nil => exact absurd hsw (similarityWords_ne_nil a)
    | cons w l => exact ⟨w, l, rfl⟩
  exact ⟨w, by simp [hwl]⟩

theorem inter_length_eq_card (a b : JStr) (h : (similarityWords a).Nodup) :
    ((similarityWords a).filter (fun w => (similarityWords b).contains w)).length
      = ((similarityWords a).toFinset ∩ (similarityWords b).toFinset).card := by
  rw [← List.toFinset_card_of_nodup (h.filter _)]
  congr 1
  rw [List.toFinset_filter, ← Finset.filter_mem_eq_inter]
  apply Finset.filter_congr
  intro x _
  simp

/-! ### Claims C1-C3: algebraic properties of `calculateSimilarity` -/

/-- C1 (amended): `similarity(a, a) = 1` for every text `a` whose lowercased,
whitespace-split token list is duplicate-free.  This includes the empty text,
whose token list is the single empty token (JS `"".split(/\s+/)` is `[""]`),
so `similarity("", "") = 1` — not `0` as the claim stated — and no
division by zero occurs because the split list is never empty. -/
theorem similarity_self_eq_one_of_nodup (a : JStr) (h : (similarityWords a).Nodup) :
    calculateSimilarity a a = 1 := by
  unfold calculateSimilarity
  rw [List.filter_eq_self.mpr (fun w hw => by simpa using hw)]
  rw [jsSetDedup_length, List.toFinset_append, Finset.union_self,
    List.toFinset_card_of_nodup h]
  rw [div_self]
  exact_mod_cast (similarityWords_length_pos a).ne'

/-- Witness for C1's amended theorem at the empty text: its token list `[""]`
is duplicate-free, and the similarity of two empty texts is 1. -/
theorem similarity_self_eq_one_of_nodup_witness :
    (similarityWords "".toList).Nodup ∧ calculateSimilarity "".toList "".toList = 1 :=
  ⟨by decide, similarity_self_eq_one_of_nodup "".toList (by decide)⟩

/-- C1 counterexample to the claim as stated: the similarity of two empty
texts is `1`, not `0` (JS `"".split(/\s+/)` is `[""]`, so the union has one
element), and on a non-empty text with a repeated word, `similarity(a, a)`
is `2`, not `1`. -/
theorem similarity_self_claim_counterexample :
    calculateSimilarity "".toList "".toList = 1 ∧
    calculateSimilarity "".toList "".toList ≠ 0 ∧
    calculateSimilarity "x x".toList "x x".toList = 2 := by
  have he : calculateSimilarity "".toList "".toList = 1 := by
    have h1 : ((similarityWords "".toList).filter
        (fun word => (similarityWords "".toList).contains word)).length = 1 := rfl
    have h2 : (jsSetDedup (similarityWords "".toList ++ similarityWords "".toList)).length
        = 1 := rfl
    unfold calculateSimilarity
    rw [h1, h2]
    norm_num
  have hx : calculateSimilarity "x x".toList "x x".toList = 2 := by
    have h1 : ((similarityWords "x x".toList).filter
        (fun word => (similarityWords "x x".toList).contains word)).length = 2 := rfl
    have h2 : (jsSetDedup (similarityWords "x x".toList ++ similarityWords "x x".toList)).length
        = 1 := rfl
    unfold calculateSimilarity
    rw [h1, h2]
    norm_num
  refine ⟨he, ?_, hx⟩
  rw [he]
  norm_num

/-- C2 (amended): `similarity(a, b)` is always nonnegative, and it is at most
`1` whenever the first text's token list is duplicate-free.  (When `a` has a
repeated token that also occurs in `b`, the intersection is counted with
multiplicity while the union is deduplicated, so the quotient can exceed 1.) -/
theorem similarity_nonneg_and_le_one_of_nodup (a b : JStr) :
    0 ≤ calculateSimilarity a b ∧
      ((similarityWords a).Nodup → calculateSimilarity a b ≤ 1) := by
  constructor
  · unfold calculateSimilarity
    exact div_nonneg (Nat.cast_nonneg _) (Nat.cast_nonneg _)
  · intro h
    unfold calculateSimilarity
    rw [div_le_one (by exact_mod_cast union_length_pos a b)]
    have hle : ((similarityWords a).filter
        (fun word => (similarityWords b).contains word)).length
        ≤ (jsSetDedup (similarityWords a ++ similarityWords b)).length := by
      rw [inter_length_eq_card a b h, jsSetDedup_length, List.toFinset_append]
      exact Finset.card_le_card (Finset.inter_subset_left.trans Finset.subset_union_left)
    exact_mod_cast hle

/-- Witness for C2's amended theorem on a concrete pair of non-empty texts. -/
theorem similarity_nonneg_and_le_one_of_nodup_witness :
    0 ≤ calculateSimilarity "a b".toList "b c".toList ∧
      calculateSimilarity "a b".toList "b c".toList ≤ 1 :=
  ⟨(similarity_nonneg_and_le_one_of_nodup "a b".toList "b c".toList).1,
   (similarity_nonneg_and_le_one_of_nodup "a b".toList "b c".toList).2 (by decide)⟩

/-- C2 counterexample to the claim as stated: for the non-empty texts
`"x x"` and `"x"` the similarity is `2`, outside `[0, 1]`. -/
theorem similarity_range_counterexample :
    calculateSimilarity "x x".toList "x".toList = 2 ∧
      ¬ calculateSimilarity "x x".toList "x".toList ≤ 1 := by
  have hx : calculateSimilarity "x x".toList "x".toList = 2 := by
    have h1 : ((similarityWords "x x".toList).filter
        (fun word => (similarityWords "x".toList).contains word)).length = 2 := rfl
    have h2 : (jsSetDedup (similarityWords "x x".toList ++ similarityWords "x".toList)).length
        = 1 := rfl
    unfold calculateSimilarity
    rw [h1, h2]
    norm_num
  refine ⟨hx, ?_⟩
  rw [hx]
  norm_num

/-- C3 (amended): `similarity(a, b) = similarity(b, a)` whenever both texts'
token lists are duplicate-free.  (With a repeated token the intersection is
counted with the first argument's multiplicities, breaking symmetry.) -/
theorem similarity_symm_of_nodup (a b : JStr)
    (ha : (similarityWords a).Nodup) (hb : (similarityWords b).Nodup) :
    calculateSimilarity a b = calculateSimilarity b a := by
  unfold calculateSimilarity
  have hnum : ((similarityWords a).filter
      (fun word => (similarityWords b).contains word)).length
      = ((similarityWords b).filter
      (fun word => (similarityWords a).contains word)).length := by
    rw [inter_length_eq_card a b ha, inter_length_eq_card b a hb, Finset.inter_comm]
  have hden : (jsSetDedup (similarityWords a ++ similarityWords b)).length
      = (jsSetDedup (similarityWords b ++ similarityWords a)).length := by
    rw [jsSetDedup_length, jsSetDedup_length, List.toFinset_append, List.toFinset_append,
      Finset.union_comm]
  rw [hnum, hden]

/-- Witness for C3's amended theorem on a concrete pair of texts. -/
theorem similarity_symm_of_nodup_witness :
    calculateSimilarity "a b".toList "b c".toList
      = calculateSimilarity "b c".toList "a b".toList :=
  similarity_symm_of_nodup "a b".toList "b c".toList (by decide) (by decide)

/-- C3 counterexample to the claim as stated: `similarity("y y", "y") = 2`
but `similarity("y", "y y") = 1`, so the function is not symmetric. -/
theorem similarity_symm_counterexample :
    calculateSimilarity "y y".toList "y".toList
      ≠ calculateSimilarity "y".toList "y y".toList := by
  have h1 : calculateSimilarity "y y".toList "y".toList = 2 := by
    have ha : ((similarityWords "y y".toList).filter
        (fun word => (similarityWords "y".toList).contains word)).length = 2 := rfl
    have hb : (jsSetDedup (similarityWords "y y".toList ++ similarityWords "y".toList)).length
        = 1 := rfl
    unfold calculateSimilarity
    rw [ha, hb]
    norm_num
  have h2 : calculateSimilarity "y".toList "y y".toList = 1 := by
    have ha : ((similarityWords "y".toList).filter
        (fun word => (similarityWords "y y".toList).contains word)).length = 1 := rfl
    have hb : (jsSetDedup (similarityWords "y".toList ++ similarityWords "y y".toList)).length
        = 1 := rfl
    unfold calculateSimilarity
    rw [ha, hb]
    norm_num
  rw [h1, h2]
  norm_num

/-! ### Settings, vault files, and the Connect workflow -/

/-- The `apiProvider` setting (`'openai' | 'anthropic' | 'local'`). -/
inductive ApiProvider where
  | openai
  | anthropic
  | localModel
deriving DecidableEq

/-- The `ZettelkastenSettings` interface (lines 7-16). -/
structure ZettelkastenSettings where
  apiKey : JStr
  apiProvider : ApiProvider
  apiEndpoint : JStr
  fleetingNotesFolder : JStr
  permanentNotesFolder : JStr
  structureNotesFolder : JStr
  autoProcess : Bool
  connectionThreshold : ℚ

/-- A vault file as seen through the Obsidian API: its full `path`, its
base `name` (with extension), and its current text content (so that
`vault.read file` is the pure projection `file.content`). -/
structure VaultFile where
  path : JStr
  name : JStr
  content : JStr

/-- One element of the list produced by `findSimilarNotes`:
`{file, similarity, reason}`. -/
structure ConnectionSuggestion where
  file : JStr
  similarity : ℚ
  reason : JStr

/-- Insertion step for the descending sort by similarity. -/
def insertBySim (x : ConnectionSuggestion) :
    List ConnectionSuggestion → List ConnectionSuggestion
  | [] => [x]
  | y :: ys =>
    if y.similarity < x.similarity then x :: y :: ys else y :: insertBySim x ys

/-- The sort `similarities.sort((a, b) => b.similarity - a.similarity)`:
a comparator-correct sort producing a list in descending order of
`similarity` (the claims checked here depend only on the ordering of the
result and on its membership, which any correct sort realises). -/
def sortBySimDesc : List ConnectionSuggestion → List ConnectionSuggestion
  | [] => []
  | x :: xs => insertBySim x (sortBySimDesc xs)

/-- `this.app.vault.getFiles().filter(file => file.path.startsWith('Permanent Notes/'))`
as it appears in `findSimilarNotes` (lines 246-247).  The settings object is in
scope (`this.settings`) but the filter uses the literal string. -/
def findSimilarNotesScanned (_settings : ZettelkastenSettings)
    (vault : List VaultFile) : List VaultFile :=
  vault.filter (fun f => ("Permanent Notes/".toList).isPrefixOf f.path)

/-- `AIService.findSimilarNotes` (lines 240-265): read every permanent note,
compute its similarity with the active content, keep those strictly above
`settings.connectionThreshold` together with an LLM-produced `reason`
(modelled by the `explainConnection` oracle), and sort descending. -/
def findSimilarNotes (settings : ZettelkastenSettings) (vault : List VaultFile)
    (explainConnection : JStr → JStr → JStr) (content : JStr) :
    List ConnectionSuggestion :=
  sortBySimDesc ((findSimilarNotesScanned settings vault).filterMap (fun f =>
    if settings.connectionThreshold < calculateSimilarity content f.content then
      some ⟨f.name, calculateSimilarity content f.content,
        explainConnection content f.content⟩
    else none))

/-- The scan of `identifyWritingTopics` (lines 273-274): same literal filter. -/
def identifyWritingTopicsScanned (_settings : ZettelkastenSettings)
    (vault : List VaultFile) : List VaultFile :=
  vault.filter (fun f => ("Permanent Notes/".toList).isPrefixOf f.path)

/-- The scan of `findOrphanedNotes` (lines 417-418): same literal filter. -/
def findOrphanedNotesScanned (_settings : ZettelkastenSettings)
    (vault : List VaultFile) : List VaultFile :=
  vault.filter (fun f => ("Permanent Notes/".toList).isPrefixOf f.path)

/-- The prompt built by `identifyWritingTopics`, embedding the first 50 note
contents joined by `'\n---\n'`. -/
def writingTopicsPrompt (noteContents : List JStr) : JStr :=
  "\nAnalyze these notes and identify potential writing topics:\n\nNotes: ".toList ++
    (List.intercalate "\n---\n".toList (noteContents.take 50)) ++
    ("\n\nIdentify 3-5 topics where there are enough interconnected notes to write about.\nFor each topic, suggest:\n1. Topic name\n2. Estimated note count\n3. Readiness score (1-10)\n4. Unique writing angle\n\nReturn as JSON array.\n".toList)

/-- `AIService.identifyWritingTopics` (lines 267-297) up to the LLM call:
reads every scanned note and sends the prompt; the raw LLM response (to be
`JSON.parse`d by the caller-side of the model) is returned. -/
def identifyWritingTopics (settings : ZettelkastenSettings) (vault : List VaultFile)
    (llm : JStr → JStr) : JStr :=
  llm (writingTopicsPrompt
    ((identifyWritingTopicsScanned settings vault).map (fun f => f.content)))

mutual

/-- Number of matches of the global regex `/\[\[.*?\]\]/g` (used by
`findOrphanedNotes` to count wiki links): scanning state, looking for an
opening `[[`. -/
def countLinksScan : List Char → Nat
  | '[' :: '[' :: rest => countLinksSeek rest
  | _ :: rest => countLinksScan rest
  | [] => 0

/-- Seek state: after an opening `[[`, looking for the first `]]`; `.` does
not match a newline, and a failed candidate cannot hide an earlier-starting
match before the blocking newline, so scanning resumes after it. -/
def countLinksSeek : List Char → Nat
  | ']' :: ']' :: rest => 1 + countLinksScan rest
  | '\n' :: rest => countLinksScan rest
  | _ :: rest => countLinksSeek rest
  | [] => 0

end

/-- `AIService.findOrphanedNotes` (lines 415-431): scanned permanent notes
whose content has fewer than two `[[...]]` links, first five names. -/
def findOrphanedNotes (settings : ZettelkastenSettings)
    (vault : List VaultFile) : List JStr :=
  (((findOrphanedNotesScanned settings vault).filter
      (fun f => countLinksScan f.content < 2)).map (fun f => f.name)).take 5

/-! ### Supporting lemmas about the Connect workflow -/

theorem mem_insertBySim {y x : ConnectionSuggestion} {l : List ConnectionSuggestion} :
    y ∈ insertBySim x l ↔ y = x ∨ y ∈ l := by
  induction l with
  | nil => simp [insertBySim]
  | cons z zs ih =>
    rw [insertBySim]
    split
    · simp [or_assoc, or_left_comm]
    · simp only [List.mem_cons, ih]
      tauto

theorem mem_sortBySimDesc {y : ConnectionSuggestion} {l : List ConnectionSuggestion} :
    y ∈ sortBySimDesc l ↔ y ∈ l := by
  induction l with
  | nil => simp [sortBySimDesc]
  | cons x xs ih =>
    rw [sortBySimDesc]
    simp [mem_insertBySim, ih]

theorem pairwise_insertBySim (x : ConnectionSuggestion) (l : List ConnectionSuggestion)
    (h : l.Pairwise (fun s t => t.similarity ≤ s.similarity)) :
    (insertBySim x l).Pairwise (fun s t => t.similarity ≤ s.similarity) := by
  induction l with
  | nil => simp [insertBySim]
  | cons y ys ih =>
    rw [List.pairwise_cons] at h
    obtain ⟨hy, hys⟩ := h
    rw [insertBySim]
    split
    · rename_i hlt
      rw [List.pairwise_cons]
      refine ⟨fun z hz => ?_, List.pairwise_cons.mpr ⟨hy, hys⟩⟩
      rcases List.mem_cons.mp hz with rfl | hz
      · exact hlt.le
      · exact (hy z hz).trans hlt.le
    · rename_i hge
      rw [List.pairwise_cons]
      refine ⟨fun z hz => ?_, ih hys⟩
      rcases mem_insertBySim.mp hz with rfl | hz
      · exact le_of_not_lt hge
      · exact hy z hz

theorem pairwise_sortBySimDesc (l : List ConnectionSuggestion) :
    (sortBySimDesc l).Pairwise (fun s t => t.similarity ≤ s.similarity) := by
  induction l with
  | nil => simp [sortBySimDesc]
  | cons x xs ih =>
    rw [sortBySimDesc]
    exact pairwise_insertBySim x _ ih

/-- Evaluation helper: `calculateSimilarity` at concrete texts, given the two
kernel-computable list lengths. -/
theorem calculateSimilarity_eval (c1 c2 : JStr) (i u : ℕ)
    (h1 : ((similarityWords c1).filter
        (fun word => (similarityWords c2).contains word)).length = i)
    (h2 : (jsSetDedup (similarityWords c1 ++ similarityWords c2)).length = u) :
    calculateSimilarity c1 c2 = (i : ℚ) / (u : ℚ) := by
  unfold calculateSimilarity
  rw [h1, h2]

/-! ### Claims C4, C9, C10: the Connect workflow and the permanent-notes scan -/

/-- C4: every suggestion returned by `findSimilarNotes` has similarity
strictly greater than the configured `connectionThreshold` (the code keeps a
candidate only under `similarity > threshold`). -/
theorem findSimilarNotes_respects_threshold (settings : ZettelkastenSettings)
    (vault : List VaultFile) (explainConnection : JStr → JStr → JStr) (content : JStr) :
    ∀ s ∈ findSimilarNotes settings vault explainConnection content,
      settings.connectionThreshold < s.similarity := by
  intro s hs
  rw [findSimilarNotes, mem_sortBySimDesc] at hs
  obtain ⟨f, _, hf⟩ := List.mem_filterMap.mp hs
  by_cases hcond :
      settings.connectionThreshold < calculateSimilarity content f.content
  · rw [if_pos hcond] at hf
    obtain rfl := Option.some.inj hf
    simpa using hcond
  · rw [if_neg hcond] at hf
    exact absurd hf (by simp)

/-- A permanent note whose content gives similarity `1/2` against `"a b"`. -/
def permNoteABCD : VaultFile :=
  ⟨"Permanent Notes/n.md".toList, "n.md".toList, "a b c d".toList⟩

/-- Default-shaped settings with a chosen connection threshold. -/
def settingsWithThreshold (t : ℚ) : ZettelkastenSettings :=
  ⟨[], ApiProvider.openai, [], [], [], [], false, t⟩

/-- Witness for C4, realising the spec scenario: with threshold `0.7` and a
single permanent document scoring `0.5` the suggestion list is empty, and
with threshold `0.2` the same document is suggested, to which the theorem
applies. -/
theorem findSimilarNotes_respects_threshold_witness :
    findSimilarNotes (settingsWithThreshold (7/10)) [permNoteABCD]
        (fun _ _ => []) "a b".toList = [] ∧
      (settingsWithThreshold (1/5)).connectionThreshold
        < (ConnectionSuggestion.mk "n.md".toList (1/2) []).similarity := by
  have hsim : calculateSimilarity "a b".toList permNoteABCD.content = 1/2 := by
    rw [calculateSimilarity_eval "a b".toList permNoteABCD.content 2 4 rfl rfl]
    norm_num
  constructor
  · rw [findSimilarNotes,
      show findSimilarNotesScanned (settingsWithThreshold (7/10)) [permNoteABCD]
        = [permNoteABCD] from rfl,
      List.filterMap_cons, List.filterMap_nil]
    rw [if_neg]
    · rfl
    · show ¬ (settingsWithThreshold (7/10)).connectionThreshold
        < calculateSimilarity "a b".toList permNoteABCD.content
      rw [hsim]
      show ¬ (7/10 : ℚ) < 1/2
      norm_num
  · have hres : findSimilarNotes (settingsWithThreshold (1/5)) [permNoteABCD]
        (fun _ _ => []) "a b".toList
        = [ConnectionSuggestion.mk "n.md".toList (1/2) []] := by
      rw [findSimilarNotes,
        show findSimilarNotesScanned (settingsWithThreshold (1/5)) [permNoteABCD]
          = [permNoteABCD] from rfl,
        List.filterMap_cons, List.filterMap_nil]
      rw [if_pos]
      · rw [hsim]
        rfl
      · show (settingsWithThreshold (1/5)).connectionThreshold
          < calculateSimilarity "a b".toList permNoteABCD.content
        rw [hsim]
        show (1/5 : ℚ) < 1/2
        norm_num
    have hmem : ConnectionSuggestion.mk "n.md".toList (1/2) []
        ∈ findSimilarNotes (settingsWithThreshold (1/5)) [permNoteABCD]
          (fun _ _ => []) "a b".toList := by
      rw [hres]
      exact List.mem_singleton.mpr rfl
    exact findSimilarNotes_respects_threshold (settingsWithThreshold (1/5))
      [permNoteABCD] (fun _ _ => []) "a b".toList _ hmem

/-- C9: the suggestion list returned by `findSimilarNotes` is sorted in
descending order of similarity: each suggestion's similarity is at least the
next one's. -/
theorem findSimilarNotes_sorted_desc (settings : ZettelkastenSettings)
    (vault : List VaultFile) (explainConnection : JStr → JStr → JStr) (content : JStr) :
    List.Chain' (fun s t => t.similarity ≤ s.similarity)
      (findSimilarNotes settings vault explainConnection content) :=
  (pairwise_sortBySimDesc _).chain'

/-- C10: the files scanned as permanent notes by `findSimilarNotes`,
`identifyWritingTopics` and `findOrphanedNotes` are exactly the vault files
whose path starts with the literal `'Permanent Notes/'`, for every settings
value, and in particular the scan is identical for any two settings values
(the `permanentNotesFolder` setting is never consulted). -/
theorem permanent_scan_independent_of_settings (s1 s2 : ZettelkastenSettings)
    (vault : List VaultFile) :
    findSimilarNotesScanned s1 vault
        = vault.filter (fun f => ("Permanent Notes/".toList).isPrefixOf f.path) ∧
      identifyWritingTopicsScanned s1 vault
        = vault.filter (fun f => ("Permanent Notes/".toList).isPrefixOf f.path) ∧
      findOrphanedNotesScanned s1 vault
        = vault.filter (fun f => ("Permanent Notes/".toList).isPrefixOf f.path) ∧
      findSimilarNotesScanned s1 vault = findSimilarNotesScanned s2 vault ∧
      identifyWritingTopicsScanned s1 vault = identifyWritingTopicsScanned s2 vault ∧
      findOrphanedNotesScanned s1 vault = findOrphanedNotesScanned s2 vault :=
  ⟨rfl, rfl, rfl, rfl, rfl, rfl⟩

/-! ### The generation client: JSON values, response extraction, `callLLM` -/

/-- A parsed JSON value as handled by `response.json()`.  `null` also stands
for JS `undefined` (both are falsy, propagate identically through the
optional-chaining accesses below, and behave identically under `||`). -/
inductive Json where
  | null
  | bool (b : Bool)
  | num (q : ℚ)
  | str (s : JStr)
  | arr (elements : List Json)
  | obj (fields : List (JStr × Json))

/-- JS property access `v?.[key]` under optional chaining: field of an object
(later duplicate keys override earlier ones, as in a parsed JSON object),
`undefined` (here `null`) on everything else. -/
def jsGetField (j : Json) (key : JStr) : Json :=
  match j with
  | Json.obj fields =>
    (fields.foldl (fun acc kv => if kv.1 = key then some kv.2 else acc) none).getD Json.null
  | _ => Json.null

/-- JS index access `v?.[i]`: array element, single-character string for a
string, numeric-string property for an object, `undefined` otherwise. -/
def jsIndex (j : Json) (i : ℕ) : Json :=
  match j with
  | Json.arr elements => elements.getD i Json.null
  | Json.str s =>
    match s[i]? with
    | some c => Json.str [c]
    | none => Json.null
  | Json.obj fields => jsGetField (Json.obj fields) (Nat.repr i).toList
  | _ => Json.null

/-- JS truthiness of a JSON value (`undefined`/`null`, `false`, `0` and `""`
are falsy; arrays and objects are truthy). -/
def jsTruthy : Json → Bool
  | Json.null => false
  | Json.bool b => b
  | Json.num q => decide (q ≠ 0)
  | Json.str s => decide (s ≠ [])
  | Json.arr _ => true
  | Json.obj _ => true

/-- The field path `data.choices?.[0]?.message?.content`. -/
def choicesPath (data : Json) : Json :=
  jsGetField (jsGetField (jsIndex (jsGetField data "choices".toList) 0)
    "message".toList) "content".toList

/-- The field path `data.content?.[0]?.text`. -/
def contentPath (data : Json) : Json :=
  jsGetField (jsIndex (jsGetField data "content".toList) 0) "text".toList

/-- The completion extraction in `callLLM` (line 383):
`data.choices?.[0]?.message?.content || data.content?.[0]?.text || ''`.
JS `||` keeps the left value when it is truthy, so an empty-string value at
the first path falls through to the second. -/
def extractCompletion (data : Json) : Json :=
  if jsTruthy (choicesPath data) then choicesPath data
  else if jsTruthy (contentPath data) then contentPath data
  else Json.str []

/-- The single outbound HTTP POST built by `callLLM` (lines 361-380). -/
structure HttpRequest where
  url : JStr
  authorizationHeader : JStr
  model : JStr
  promptMessage : JStr
  maxTokens : ℕ
  temperature : ℚ

/-- The error taxonomy of the generation client: a missing API key
(`throw new Error('API key not configured')`, the spec's
`ConfigurationError`) or a failed fetch (rethrown, the spec's
`TransportError`). -/
inductive LLMError where
  | configurationError
  | transportError

/-- `AIService.callLLM` (lines 354-388).  The network is an oracle from the
built request to either a transport failure or a parsed JSON response; the
list of requests actually issued is returned alongside the result, so that
"no outbound HTTP request" is the statement that this list is empty. -/
def callLLM (settings : ZettelkastenSettings) (net : HttpRequest → Except Unit Json)
    (prompt : JStr) : Except LLMError Json × List HttpRequest :=
  if settings.apiKey = [] then (Except.error LLMError.configurationError, [])
  else
    let req : HttpRequest :=
      ⟨settings.apiEndpoint,
       "Bearer ".toList ++ settings.apiKey,
       (if settings.apiProvider = ApiProvider.openai then "gpt-4"
        else "claude-3-sonnet-20240229").toList,
       prompt, 2000, 7/10⟩
    match net req with
    | Except.error _ => (Except.error LLMError.transportError, [req])
    | Except.ok data => (Except.ok (extractCompletion data), [req])

/-! ### Claims C5 and C8: response extraction and the missing-key guard -/

/-- The chat-completion example `{"choices":[{"message":{"content":"hi"}}]}`. -/
def exChatShape : Json :=
  Json.obj [("choices".toList,
    Json.arr [Json.obj [("message".toList,
      Json.obj [("content".toList, Json.str "hi".toList)])]])]

/-- The alternate example `{"content":[{"text":"hi"}]}`. -/
def exAltShape : Json :=
  Json.obj [("content".toList,
    Json.arr [Json.obj [("text".toList, Json.str "hi".toList)]])]

/-- The empty-object example `{}`. -/
def exEmptyShape : Json := Json.obj []

/-- A response where the first field path is present but holds the empty
string, while the second path holds `"alt"`. -/
def exFalsyFirst : Json :=
  Json.obj [("choices".toList,
      Json.arr [Json.obj [("message".toList,
        Json.obj [("content".toList, Json.str [])])]]),
    ("content".toList,
      Json.arr [Json.obj [("text".toList, Json.str "alt".toList)]])]

/-- C5 (amended): the generation client returns the value at
`choices[0].message.content` when that value is truthy (in particular a
non-empty string), otherwise the value at `content[0].text` when that is
truthy, otherwise the empty string; the three scenario responses behave as
the claim lists.  (Presence alone is not enough: a present but falsy first
field, such as the empty string, falls through to the second path.) -/
theorem extractCompletion_fallback_chain :
    (∀ data : Json,
      (jsTruthy (choicesPath data) = true → extractCompletion data = choicesPath data) ∧
      (jsTruthy (choicesPath data) = false → jsTruthy (contentPath data) = true →
        extractCompletion data = contentPath data) ∧
      (jsTruthy (choicesPath data) = false → jsTruthy (contentPath data) = false →
        extractCompletion data = Json.str [])) ∧
    extractCompletion exChatShape = Json.str "hi".toList ∧
    extractCompletion exAltShape = Json.str "hi".toList ∧
    extractCompletion exEmptyShape = Json.str [] := by
  refine ⟨fun data => ⟨?_, ?_, ?_⟩, rfl, rfl, rfl⟩
  · intro h1
    rw [extractCompletion, if_pos h1]
  · intro h1 h2
    rw [extractCompletion, if_neg (by simp [h1]), if_pos h2]
  · intro h1 h2
    rw [extractCompletion, if_neg (by simp [h1]), if_neg (by simp [h2])]

/-- Witness for C5's amended theorem, applying it to the two scenario
shapes. -/
theorem extractCompletion_fallback_chain_witness :
    extractCompletion exChatShape = choicesPath exChatShape ∧
      extractCompletion exAltShape = contentPath exAltShape ∧
      extractCompletion exEmptyShape = Json.str [] :=
  ⟨(extractCompletion_fallback_chain.1 exChatShape).1 rfl,
   (extractCompletion_fallback_chain.1 exAltShape).2.1 rfl rfl,
   (extractCompletion_fallback_chain.1 exEmptyShape).2.2 rfl rfl⟩

/-- C5 counterexample to the claim as stated: in `exFalsyFirst` the field
path `choices[0].message.content` is present (holding `""`), yet the client
returns `"alt"` from the fallback path, not the present first value. -/
theorem extractCompletion_present_counterexample :
    choicesPath exFalsyFirst = Json.str [] ∧
      extractCompletion exFalsyFirst = Json.str "alt".toList ∧
      extractCompletion exFalsyFirst ≠ choicesPath exFalsyFirst := by
  refine ⟨rfl, rfl, ?_⟩
  intro h
  rw [show extractCompletion exFalsyFirst = Json.str "alt".toList from rfl,
    show choicesPath exFalsyFirst = Json.str [] from rfl] at h
  simp at h

/-- C8: with an empty configured API key, `callLLM` fails with the
configuration error and issues no outbound HTTP request (the guard precedes
the fetch, so no network effect and no state change occurs). -/
theorem callLLM_missing_key_no_request (settings : ZettelkastenSettings)
    (net : HttpRequest → Except Unit Json) (prompt : JStr)
    (h : settings.apiKey = []) :
    callLLM settings net prompt = (Except.error LLMError.configurationError, []) := by
  rw [callLLM, if_pos h]

/-- Witness for C8 at a concrete settings value with an empty key. -/
theorem callLLM_missing_key_no_request_witness :
    callLLM (settingsWithThreshold (7/10)) (fun _ => Except.ok Json.null) "p".toList
      = (Except.error LLMError.configurationError, []) :=
  callLLM_missing_key_no_request (settingsWithThreshold (7/10))
    (fun _ => Except.ok Json.null) "p".toList rfl

/-! ### Front matter: the anchored non-greedy dash-fence regex and line parsing -/

/-- Split a string at the first occurrence of the (non-empty) pattern `pat`:
`some (before, after)` when `pat` occurs, `none` otherwise.  This is the
semantics of the leftmost, non-greedy (`(.*?)`) match used by
`extractFrontmatter`'s regex with the `s` flag (where `.` also matches
newlines). -/
def splitFirstOcc (pat : List Char) (s : List Char) : Option (List Char × List Char) :=
  match s with
  | [] => none
  | c :: rest =>
    if pat.isPrefixOf (c :: rest) then some ([], (c :: rest).drop pat.length)
    else (splitFirstOcc pat rest).map (fun pr => (c :: pr.1, pr.2))

/-- JS `s.split('\n')` on the matched front-matter block. -/
def splitLines (s : List Char) : List (List Char) :=
  match s with
  | [] => [[]]
  | c :: rest =>
    if c = '\n' then [] :: splitLines rest
    else
      match splitLines rest with
      | [] => [[c]]
      | l :: ls => (c :: l) :: ls

/-- JS `s.trim()` (ASCII whitespace, which covers the plugin's inputs). -/
def jsTrim (s : List Char) : List Char :=
  ((s.dropWhile (fun c => isWS c)).reverse.dropWhile (fun c => isWS c)).reverse

/-- One front-matter line: `const [key, ...value] = line.split(':')` then
`[key.trim(), value.join(':').trim()]` — i.e. split at the first colon,
keeping any further colons inside the value. -/
def parseFrontmatterLine (line : JStr) : JStr × JStr :=
  match splitFirstOcc [':'] line with
  | some (k, v) => (jsTrim k, jsTrim v)
  | none => (jsTrim line, [])

/-- `ZettelkastenPlugin.extractFrontmatter` (lines 177-193): match the
anchored regex `^---\n(.*?)\n---` (with the `s` flag, so `.` matches
newlines), split the captured group into lines, keep lines containing a
colon, and parse each into a trimmed key/value pair.  With no match the
result is the empty mapping. -/
def extractFrontmatter (content : JStr) : List (JStr × JStr) :=
  if ("---\n".toList).isPrefixOf content then
    match splitFirstOcc ("\n---".toList) (content.drop 4) with
    | some (header, _) =>
      ((splitLines header).filter (fun line => line.contains ':')).map parseFrontmatterLine
    | none => []
  else []

/-- JS `Object.fromEntries(entries)[key]` as an `Option`: later entries with
the same key override earlier ones; `none` models `undefined`. -/
def fromEntriesGet (entries : List (JStr × JStr)) (key : JStr) : Option JStr :=
  entries.foldl (fun acc kv => if kv.1 = key then some kv.2 else acc) none

/-! ### Lemmas about the substring search and line splitting -/

theorem splitFirstOcc_append_of_head_notMem (p0 : Char) (pt s t : List Char)
    (h : p0 ∉ s) :
    splitFirstOcc (p0 :: pt) (s ++ t)
      = (splitFirstOcc (p0 :: pt) t).map (fun pr => (s ++ pr.1, pr.2)) := by
  induction s with
  | nil =>
    simp only [List.nil_append]
    cases splitFirstOcc (p0 :: pt) t <;> simp
  | cons c s' ih =>
    simp only [List.mem_cons, not_or] at h
    rw [List.cons_append, splitFirstOcc]
    rw [if_neg (by
      simp only [List.isPrefixOf, Bool.and_eq_true, beq_iff_eq]
      exact fun hpre => h.1 hpre.1)]
    rw [ih h.2]
    cases splitFirstOcc (p0 :: pt) t <;> simp

theorem isPrefixOf_append_self (l₁ l₂ : List Char) : l₁.isPrefixOf (l₁ ++ l₂) = true := by
  induction l₁ with
  | nil => simp [List.isPrefixOf]
  | cons c cs ih => simp [List.isPrefixOf, ih]

theorem splitFirstOcc_self_append (pat t : List Char) (h : pat ≠ []) :
    splitFirstOcc pat (pat ++ t) = some ([], t) := by
  obtain ⟨p0, pt, rfl⟩ : ∃ p0 pt, pat = p0 :: pt := by
    cases pat with
    | nil => exact absurd rfl h
    | cons p0 pt => exact ⟨p0, pt, rfl⟩
  rw [List.cons_append, splitFirstOcc]
  rw [if_pos (by
    rw [← List.cons_append]
    exact isPrefixOf_append_self _ _)]
  rw [← List.cons_append, List.drop_left]

theorem splitFirstOcc_cons_no_match (pat : List Char) (c : Char) (rest : List Char)
    (h : pat.isPrefixOf (c :: rest) = false) :
    splitFirstOcc pat (c :: rest)
      = (splitFirstOcc pat rest).map (fun pr => (c :: pr.1, pr.2)) := by
  rw [splitFirstOcc, if_neg (by simp [h])]

theorem splitLines_no_newline (s : List Char) (h : '\n' ∉ s) : splitLines s = [s] := by
  induction s with
  | nil => rfl
  | cons c s' ih =>
    simp only [List.mem_cons, not_or] at h
    rw [splitLines, if_neg (Ne.symm h.1), ih h.2]

theorem splitLines_append_newline (s t : List Char) (h : '\n' ∉ s) :
    splitLines (s ++ '\n' :: t) = s :: splitLines t := by
  induction s with
  | nil =>
    rw [List.nil_append, splitLines, if_pos rfl]
  | cons c s' ih =>
    simp only [List.mem_cons, not_or] at h
    rw [List.cons_append, splitLines, if_neg (Ne.symm h.1), ih h.2]

/-! ### The Promote precondition and the Capture template -/

/-- Outcome of `processCurrentNoteToPermanent`: either the user-visible
notice `'Current note is not a fleeting note'` (the spec's
`PreconditionError`) or the opening of the processing modal. -/
inductive PromoteOutcome where
  | preconditionNotice (message : JStr)
  | openedProcessingModal

/-- `ZettelkastenPlugin.processCurrentNoteToPermanent` (lines 117-133): read
the active document, extract its front matter, and abort with a notice unless
`frontmatter.type === 'fleeting'`; only the modal opened on success performs
vault writes (the LLM call, the permanent-note creation and the source
rewrite), so its writes are abstracted as the `modalWrites` continuation.
The second component is the list of vault writes performed. -/
def processCurrentNoteToPermanent (content : JStr) (modalWrites : List (JStr × JStr)) :
    PromoteOutcome × List (JStr × JStr) :=
  if fromEntriesGet (extractFrontmatter content) "type".toList = some "fleeting".toList then
    (PromoteOutcome.openedProcessingModal, modalWrites)
  else
    (PromoteOutcome.preconditionNotice "Current note is not a fleeting note".toList, [])

/-- The document content written by `createFleetingNote` (lines 99-111):
the fixed front-matter template around the ISO `created` timestamp, followed
by the title line with the file timestamp, the user's text, and the
processing-notes placeholder. -/
def fleetingNoteContent (timestamp isoCreated userText : JStr) : JStr :=
  "---\ntype: fleeting\ncreated: ".toList ++ isoCreated ++
    "\nprocessed: false\n---\n\n# Fleeting Note - ".toList ++ timestamp ++
    "\n\n".toList ++ userText ++
    "\n\n## Processing Notes\n<!-- AI will add processing suggestions here -->\n".toList

/-- `ZettelkastenPlugin.createFleetingNote` (lines 91-115): empty input
aborts (`if (!content) return`); otherwise the note is created at
`<fleetingNotesFolder>/Fleeting-<timestamp>.md` with the template content. -/
def createFleetingNote (settings : ZettelkastenSettings)
    (timestamp isoCreated userText : JStr) : Option (JStr × JStr) :=
  if userText = [] then none
  else some
    (settings.fleetingNotesFolder ++ "/Fleeting-".toList ++ timestamp ++ ".md".toList,
     fleetingNoteContent timestamp isoCreated userText)

/-! ### Evaluating `extractFrontmatter` on the Capture template -/

theorem splitFirstOcc_fleeting_header (iso rest : List Char) (hIso : '\n' ∉ iso) :
    splitFirstOcc ("\n---".toList)
      ("type: fleeting".toList ++ ('\n' :: ("created: ".toList ++ (iso ++
        ('\n' :: ("processed: false".toList ++ ("\n---".toList ++ rest)))))))
      = some ("type: fleeting".toList ++ ('\n' :: ("created: ".toList ++ (iso ++
          ('\n' :: "processed: false".toList)))), rest) := by
  have hdc : (('-' : Char) == 'c') = false := by decide
  have hdp : (('-' : Char) == 'p') = false := by decide
  have hdash : ("---".toList : List Char) = ['-', '-', '-'] := rfl
  have hpat : ("\n---".toList : List Char) = '\n' :: "---".toList := rfl
  have hnotC : List.isPrefixOf ('\n' :: "---".toList)
      ('\n' :: ("created: ".toList ++ (iso ++ ('\n' :: ("processed: false".toList ++
        (('\n' :: "---".toList) ++ rest)))))) = false := by
    rw [show ("created: ".toList ++ (iso ++ ('\n' :: ("processed: false".toList ++
      (('\n' :: "---".toList) ++ rest))))) = 'c' :: ("reated: ".toList ++ (iso ++ ('\n' ::
      ("processed: false".toList ++ (('\n' :: "---".toList) ++ rest))))) from rfl]
    simp [List.isPrefixOf, hdash, hdc]
  have hnotP : List.isPrefixOf ('\n' :: "---".toList)
      ('\n' :: ("processed: false".toList ++ (('\n' :: "---".toList) ++ rest))) = false := by
    rw [show ("processed: false".toList ++ (('\n' :: "---".toList) ++ rest))
      = 'p' :: ("rocessed: false".toList ++ (('\n' :: "---".toList) ++ rest)) from rfl]
    simp [List.isPrefixOf, hdash, hdp]
  rw [hpat]
  rw [splitFirstOcc_append_of_head_notMem '\n' "---".toList "type: fleeting".toList _
    (by decide)]
  rw [splitFirstOcc_cons_no_match _ '\n' _ hnotC]
  rw [splitFirstOcc_append_of_head_notMem '\n' "---".toList "created: ".toList _
    (by decide)]
  rw [splitFirstOcc_append_of_head_notMem '\n' "---".toList iso _ hIso]
  rw [splitFirstOcc_cons_no_match _ '\n' _ hnotP]
  rw [splitFirstOcc_append_of_head_notMem '\n' "---".toList "processed: false".toList _
    (by decide)]
  rw [splitFirstOcc_self_append ('\n' :: "---".toList) rest (by simp)]
  simp

theorem parseFrontmatterLine_created (iso : JStr) :
    parseFrontmatterLine ("created: ".toList ++ iso)
      = ("created".toList, jsTrim (' ' :: iso)) := by
  have hso : splitFirstOcc [':'] ("created: ".toList ++ iso)
      = some ("created".toList, ' ' :: iso) := by
    rw [show ("created: ".toList ++ iso) = "created".toList ++ (':' :: (' ' :: iso))
      from rfl]
    rw [splitFirstOcc_append_of_head_notMem ':' [] "created".toList _ (by decide)]
    rw [show (':' :: (' ' :: iso)) = [':'] ++ (' ' :: iso) from rfl]
    rw [splitFirstOcc_self_append [':'] (' ' :: iso) (by simp)]
    simp
  rw [parseFrontmatterLine, hso]
  rfl

theorem extractFrontmatter_fleeting (timestamp isoCreated userText : JStr)
    (hIso : '\n' ∉ isoCreated) :
    extractFrontmatter (fleetingNoteContent timestamp isoCreated userText)
      = [("type".toList, "fleeting".toList),
         ("created".toList, jsTrim (' ' :: isoCreated)),
         ("processed".toList, "false".toList)] := by
  have hassoc : fleetingNoteContent timestamp isoCreated userText
      = "---\n".toList ++ ("type: fleeting".toList ++ ('\n' :: ("created: ".toList ++
        (isoCreated ++ ('\n' :: ("processed: false".toList ++ ("\n---".toList ++
          ("\n\n# Fleeting Note - ".toList ++ (timestamp ++ ("\n\n".toList ++ (userText ++
            "\n\n## Processing Notes\n<!-- AI will add processing suggestions here -->\n".toList))))))))))) := by
    rw [fleetingNoteContent]
    simp only [List.append_assoc]
    rfl
  rw [hassoc, extractFrontmatter]
  rw [if_pos (isPrefixOf_append_self _ _)]
  rw [show (4 : ℕ) = ("---\n".toList : List Char).length from rfl, List.drop_left]
  rw [splitFirstOcc_fleeting_header _ _ hIso]
  show ((splitLines ("type: fleeting".toList ++ ('\n' :: ("created: ".toList ++
      (isoCreated ++ ('\n' :: "processed: false".toList)))))).filter
        (fun line => line.contains ':')).map parseFrontmatterLine = _
  have hno : '\n' ∉ ("created: ".toList ++ isoCreated) := by
    simp only [List.mem_append, not_or]
    exact ⟨by decide, hIso⟩
  rw [splitLines_append_newline "type: fleeting".toList _ (by decide)]
  rw [show ("created: ".toList ++ (isoCreated ++ ('\n' :: "processed: false".toList)))
      = ("created: ".toList ++ isoCreated) ++ ('\n' :: "processed: false".toList)
    from (List.append_assoc _ _ _).symm]
  rw [splitLines_append_newline ("created: ".toList ++ isoCreated) _ hno]
  rw [splitLines_no_newline "processed: false".toList (by decide)]
  have hc2 : ((("created: ".toList ++ isoCreated) : List Char).contains ':') = true := by
    simp [List.mem_append]
  have hfilter : List.filter (fun line => line.contains ':')
      ["type: fleeting".toList, "created: ".toList ++ isoCreated,
        "processed: false".toList]
      = ["type: fleeting".toList, "created: ".toList ++ isoCreated,
          "processed: false".toList] := by
    apply List.filter_eq_self.mpr
    intro a ha
    simp only [List.mem_cons, List.not_mem_nil, or_false] at ha
    rcases ha with rfl | rfl | rfl
    · decide
    · exact hc2
    · decide
  rw [hfilter]
  rw [List.map_cons, List.map_cons, List.map_cons, List.map_nil]
  rw [parseFrontmatterLine_created]
  rfl

/-! ### Claims C6 and C7: the Promote precondition and the Capture round trip -/

/-- C6: for every document whose front matter does not map `type` to
`fleeting` (including documents with no front matter at all), the Promote
workflow performs zero vault writes and surfaces the precondition notice
`'Current note is not a fleeting note'` instead of proceeding. -/
theorem promote_nonfleeting_no_writes (content : JStr) (modalWrites : List (JStr × JStr))
    (h : fromEntriesGet (extractFrontmatter content) "type".toList
      ≠ some "fleeting".toList) :
    processCurrentNoteToPermanent content modalWrites
      = (PromoteOutcome.preconditionNotice
          "Current note is not a fleeting note".toList, []) := by
  rw [processCurrentNoteToPermanent, if_neg h]

/-- Witness for C6 at a permanent-typed document: the precondition fails and
the would-be modal writes are not performed. -/
theorem promote_nonfleeting_no_writes_witness :
    fromEntriesGet (extractFrontmatter "---\ntype: permanent\n---\n\nBody".toList)
        "type".toList ≠ some "fleeting".toList ∧
      processCurrentNoteToPermanent "---\ntype: permanent\n---\n\nBody".toList
          [("Permanent Notes/x.md".toList, "x".toList)]
        = (PromoteOutcome.preconditionNotice
            "Current note is not a fleeting note".toList, []) :=
  ⟨by decide, promote_nonfleeting_no_writes _ _ (by decide)⟩

/-- C7: for every user input text (and any clock strings, the ISO timestamp
containing no newline), parsing the document produced by the Capture workflow
with `extractFrontmatter` yields a mapping sending `type` to `"fleeting"`
and `processed` to `"false"`. -/
theorem capture_frontmatter_roundtrip (timestamp isoCreated userText : JStr)
    (hIso : '\n' ∉ isoCreated) :
    fromEntriesGet (extractFrontmatter
        (fleetingNoteContent timestamp isoCreated userText)) "type".toList
      = some "fleeting".toList ∧
    fromEntriesGet (extractFrontmatter
        (fleetingNoteContent timestamp isoCreated userText)) "processed".toList
      = some "false".toList := by
  rw [extractFrontmatter_fleeting _ _ _ hIso]
  constructor
  · rw [fromEntriesGet]
    simp
  · rw [fromEntriesGet]
    simp

/-- Witness for C7 at the spec's scenario input `"idea about X"` and concrete
clock strings. -/
theorem capture_frontmatter_roundtrip_witness :
    ('\n' ∉ "2025-06-01T12:00:00.000Z".toList) ∧
      (fromEntriesGet (extractFrontmatter (fleetingNoteContent
          "2025-06-01T12-00-00".toList "2025-06-01T12:00:00.000Z".toList
          "idea about X".toList)) "type".toList = some "fleeting".toList ∧
        fromEntriesGet (extractFrontmatter (fleetingNoteContent
          "2025-06-01T12-00-00".toList "2025-06-01T12:00:00.000Z".toList
          "idea about X".toList)) "processed".toList = some "false".toList) :=
  ⟨by decide, capture_frontmatter_roundtrip _ _ _ (by decide)⟩
